import Mathlib

/-!
Shallow embedding of the tafseer backend (Express + Prisma) quota and
subscription logic, translated from the repository sources:

* `src/routes/dreams.ts` — `getActiveSubscription`, `countContentLetters`,
  `POST /` (dream creation with letter / audio / max-dreams quota checks and
  the `$transaction` that creates the dream and debits the counters);
* `src/routes/messages.ts` — `GET /` and `POST /` (interpreter-assigned gate);
* `src/routes/plans.ts` — `POST /subscribe` (manual activation upsert);
* `src/routes/payments.ts` — webhook `checkout.session.completed` branch;
* `src/routes/auth.ts` — `POST /register` (trial-plan assignment);
* `src/routes/comments.ts` and `src/middleware/auth.ts` — route-level
  authentication table and `requireAuth`.

Timestamps are modelled as milliseconds since the epoch (`Nat`); the JS
`setDate(getDate() + n)` day arithmetic is modelled as adding `n * msPerDay`.
Database rows are lists; Prisma `findUnique` / `findFirst` become `List.find?`
or an explicit fold realising the `orderBy ... desc` selection.  A handler
returns its HTTP outcome together with the post-state of the database; an
error outcome returns the input database unchanged, which models the rollback
performed by `prisma.$transaction` (and the absence of any write on the early
return paths).
-/

inductive Role where
  | dreamer
  | interpreter
  | admin
  | super_admin
deriving DecidableEq, Repr

structure User where
  id : Nat
  email : String
deriving DecidableEq, Repr

structure Profile where
  id : Nat
  email : String
  role : Role
  currentPlanId : Option Nat
deriving DecidableEq, Repr

structure Plan where
  id : Nat
  price : ℚ
  currency : String
  durationDays : Nat
  maxDreams : Option Nat
  letterQuota : Option Nat
  audioMinutesQuota : Option Nat
  isTrial : Bool
  trialDurationDays : Option Nat
  isActive : Bool
  createdAt : Nat
deriving DecidableEq, Repr

structure UserPlan where
  id : Nat
  userId : Nat
  planId : Nat
  startedAt : Nat
  expiresAt : Option Nat
  isActive : Bool
  lettersUsed : Nat
  audioMinutesUsed : Nat
deriving DecidableEq, Repr

structure Dream where
  id : Nat
  dreamerId : Nat
  interpreterId : Option Nat
  title : String
  description : String
  status : String
  createdAt : Nat
deriving DecidableEq, Repr

structure Message where
  dreamId : Nat
  senderId : Nat
  content : String
deriving DecidableEq, Repr

structure Comment where
  dreamId : Nat
  userId : Nat
  content : String
deriving DecidableEq, Repr

structure Payment where
  userId : Nat
  planId : Option Nat
  amount : ℚ
  currency : String
  status : String
  provider : String
  reference : String
deriving DecidableEq, Repr

structure DB where
  users : List User
  profiles : List Profile
  plans : List Plan
  userPlans : List UserPlan
  dreams : List Dream
  messages : List Message
  comments : List Comment
  payments : List Payment
deriving DecidableEq, Repr

def msPerDay : Nat := 86400000

def findProfile (db : DB) (id : Nat) : Option Profile :=
  db.profiles.find? (fun p => p.id == id)

def findPlan (db : DB) (id : Nat) : Option Plan :=
  db.plans.find? (fun p => p.id == id)

/-- The `where` clause of `getActiveSubscription` in `src/routes/dreams.ts`:
`userId`, `isActive: true`, and `expiresAt` null or strictly in the future. -/
def subQualifies (userId now : Nat) (s : UserPlan) : Bool :=
  s.userId == userId && s.isActive &&
    (match s.expiresAt with
     | none => true
     | some e => decide (now < e))

/-- Accumulator step realising `orderBy: { startedAt: 'desc' }` + `findFirst`:
keep the row with the strictly greatest `startedAt` (first row wins ties). -/
def moreRecent (best : Option UserPlan) (s : UserPlan) : Option UserPlan :=
  match best with
  | none => some s
  | some b => if b.startedAt < s.startedAt then some s else some b

/-- `getActiveSubscription` from `src/routes/dreams.ts`: the most recently
started active, unexpired `userPlan` row of the user. -/
def getActiveSubscription (rows : List UserPlan) (userId now : Nat) : Option UserPlan :=
  (rows.filter (subQualifies userId now)).foldl moreRecent none

/-- `countContentLetters` from `src/routes/dreams.ts`:
`if (!content) return 0; return Array.from(content).length;` —
`Array.from` iterates a JS string by Unicode code points, which is exactly
`String.length` in Lean (number of `Char`s). -/
def countContentLetters (content : String) : Nat :=
  if content = "" then 0 else content.length

/-- `audioMinutes ? Math.ceil(Number(audioMinutes)) : 0` for a numeric
`audioMinutes` body field (`none` models an absent field, and `some 0` the
falsy value `0`). -/
def audioMinutesRequestedOf : Option ℚ → Int
  | none => 0
  | some v => if v = 0 then 0 else ⌈v⌉

/-- Letter-quota denial condition from `POST /dreams`:
`plan.letterQuota !== null && lettersUsed + letterCount > plan.letterQuota`. -/
def letterQuotaBlocked (plan : Plan) (sub : UserPlan) (letterCount : Nat) : Bool :=
  match plan.letterQuota with
  | some q => decide (q < sub.lettersUsed + letterCount)
  | none => false

/-- Audio-quota denial condition from `POST /dreams`:
`audioMinutesRequested > 0 && plan.audioMinutesQuota !== null &&
audioMinutesUsed + audioMinutesRequested > plan.audioMinutesQuota`. -/
def audioQuotaBlocked (plan : Plan) (sub : UserPlan) (audioReq : Int) : Bool :=
  decide (0 < audioReq) &&
    (match plan.audioMinutesQuota with
     | some q => decide ((q : Int) < (sub.audioMinutesUsed : Int) + audioReq)
     | none => false)

/-- Max-dreams denial condition from `POST /dreams`: count the user's dreams
created since the subscription started and compare with `plan.maxDreams`. -/
def maxDreamsBlocked (plan : Plan) (dreams : List Dream) (userId : Nat) (sub : UserPlan) : Bool :=
  match plan.maxDreams with
  | some m =>
      decide (m ≤ (dreams.filter
        (fun d => d.dreamerId == userId && decide (sub.startedAt ≤ d.createdAt))).length)
  | none => false

/-- Row-level effect of the `userPlan.update` inside the dream-creation
`$transaction`: on the row with the given id, increment `lettersUsed`
(always) and `audioMinutesUsed` (only nonzero when audio was requested). -/
def bumpRow (subId dLetters dAudio : Nat) (r : UserPlan) : UserPlan :=
  if r.id = subId then
    { r with lettersUsed := r.lettersUsed + dLetters,
             audioMinutesUsed := r.audioMinutesUsed + dAudio }
  else r

/-- The `userPlan.update` inside the dream-creation `$transaction`, applied
to the whole table. -/
def bumpUsage (rows : List UserPlan) (subId : Nat) (dLetters dAudio : Nat) : List UserPlan :=
  rows.map (bumpRow subId dLetters dAudio)

/-- The conditional `audioMinutesUsed` increment of the dream-creation
transaction: `audioMinutesRequested` when it is positive, else no debit. -/
def audioDebit (audioMinutes : Option ℚ) : Nat :=
  if 0 < audioMinutesRequestedOf audioMinutes then
    (audioMinutesRequestedOf audioMinutes).toNat
  else 0

inductive DreamCreateResult where
  | created (dream : Dream)
  | error (status : Nat) (code : Option String)
deriving DecidableEq, Repr

/-- `POST /dreams` from `src/routes/dreams.ts`.  For an admin or super_admin
requester the handler skips the subscription lookup, so inside the
`$transaction` the expression `subscription.id` reads a property of
`undefined`: the thrown `TypeError` aborts the transaction (rolling back the
freshly created dream) and the `catch` maps it to a 500 response — modelled
as `(.error 500 none, db)` with the database unchanged. -/
def postDream (db : DB) (now userId : Nat) (title description : String)
    (audioMinutes : Option ℚ) (newDreamId : Nat) : DreamCreateResult × DB :=
  if title = "" ∨ description = "" then (.error 400 none, db) else
  match findProfile db userId with
  | none => (.error 404 none, db)
  | some profile =>
    let isAdmin := profile.role = .admin ∨ profile.role = .super_admin
    let letterCount := countContentLetters description
    let audioReq := audioMinutesRequestedOf audioMinutes
    if isAdmin then
      (.error 500 none, db)
    else
      match getActiveSubscription db.userPlans userId now with
      | none => (.error 402 (some "NO_ACTIVE_SUBSCRIPTION"), db)
      | some sub =>
        match findPlan db sub.planId with
        | none => (.error 402 (some "NO_ACTIVE_SUBSCRIPTION"), db)
        | some plan =>
          if letterQuotaBlocked plan sub letterCount then
            (.error 403 (some "QUOTA_EXCEEDED"), db)
          else if audioQuotaBlocked plan sub audioReq then
            (.error 403 (some "AUDIO_QUOTA_EXCEEDED"), db)
          else if maxDreamsBlocked plan db.dreams userId sub then
            (.error 403 (some "MAX_DREAMS_REACHED"), db)
          else
            let newDream : Dream :=
              { id := newDreamId, dreamerId := userId, interpreterId := none,
                title := title, description := description, status := "new",
                createdAt := now }
            (.created newDream,
              { db with dreams := db.dreams ++ [newDream],
                        userPlans := bumpUsage db.userPlans sub.id letterCount
                          (audioDebit audioMinutes) })

inductive MessagesResult where
  | ok (msgs : List Message)
  | error (status : Nat) (code : Option String)
deriving DecidableEq, Repr

/-- `GET /messages?dream_id=...` from `src/routes/messages.ts`: 404 on a
missing dream, 403 for non-participant non-admin requesters, then the
interpreter-assigned gate (from which only a super_admin is exempt). -/
def getMessages (db : DB) (userId : Nat) (dreamId : Option Nat) : MessagesResult :=
  match dreamId with
  | none => .error 400 none
  | some did =>
    match db.dreams.find? (fun d => d.id == did) with
    | none => .error 404 none
    | some dream =>
      let role := (findProfile db userId).map Profile.role
      let hasAccess :=
        dream.dreamerId == userId || dream.interpreterId == some userId ||
          role == some .admin || role == some .super_admin
      if ¬hasAccess then .error 403 none
      else
        let isSuperAdmin := role == some Role.super_admin
        if dream.interpreterId = none ∧ ¬isSuperAdmin then .error 403 none
        else .ok (db.messages.filter (fun m => m.dreamId == did))

inductive MessageCreateResult where
  | created (m : Message)
  | error (status : Nat) (code : Option String)
deriving DecidableEq, Repr

/-- `POST /messages` from `src/routes/messages.ts`.  Note the order of the
checks in the source: the `NO_INTERPRETER_ASSIGNED` gate fires for every
requester (the requester's role is never consulted), and only afterwards is
the sender required to be the dreamer or the assigned interpreter. -/
def postMessage (db : DB) (userId : Nat) (dreamId : Option Nat)
    (content : Option String) (audio : Option String) : MessageCreateResult × DB :=
  match dreamId with
  | none => (.error 400 none, db)
  | some did =>
    if content = none ∧ audio = none then (.error 400 none, db)
    else
      match db.dreams.find? (fun d => d.id == did) with
      | none => (.error 404 none, db)
      | some dream =>
        if dream.interpreterId = none then
          (.error 403 (some "NO_INTERPRETER_ASSIGNED"), db)
        else if dream.dreamerId ≠ userId ∧ dream.interpreterId ≠ some userId then
          (.error 403 none, db)
        else
          let msg : Message := { dreamId := did, senderId := userId,
                                 content := content.getD "[رسالة صوتية]" }
          (.created msg, { db with messages := db.messages ++ [msg] })

def findUserPlan (rows : List UserPlan) (userId planId : Nat) : Option UserPlan :=
  rows.find? (fun r => r.userId == userId && r.planId == planId)

/-- The `profile.update` setting `currentPlanId` (both activation paths). -/
def setCurrentPlan (profiles : List Profile) (userId planId : Nat) : List Profile :=
  profiles.map fun p =>
    if p.id = userId then { p with currentPlanId := some planId } else p

inductive SubscribeResult where
  | ok (sub : UserPlan)
  | error (status : Nat) (code : Option String)
deriving DecidableEq, Repr

/-- `POST /plans/subscribe` from `src/routes/plans.ts`: look up the plan,
compute `expiresAt = now + durationDays` and run the transaction that
upserts the `(userId, planId)` row, points the profile at the plan, and
records a `manual` payment.  The source's `update` branch sets `expiresAt`,
`isActive`, `lettersUsed: 0`, `audioMinutesUsed: 0` — and nothing else, so
`startedAt` keeps its old value.  `paymentRef` models the generated
reference string `SUB-${Date.now()}`. -/
def subscribe (db : DB) (now userId planId : Nat) (newRowId : Nat)
    (paymentRef : String) : SubscribeResult × DB :=
  match findPlan db planId with
  | none => (.error 404 none, db)
  | some plan =>
    let expiresAt := now + plan.durationDays * msPerDay
    let payment : Payment :=
      { userId := userId, planId := some planId, amount := plan.price,
        currency := plan.currency, status := "succeeded", provider := "manual",
        reference := paymentRef }
    match findUserPlan db.userPlans userId planId with
    | some existing =>
      let updated := { existing with
        expiresAt := some expiresAt, isActive := true,
        lettersUsed := 0, audioMinutesUsed := 0 }
      (.ok updated,
        { db with
          userPlans := db.userPlans.map (fun r => if r.id = existing.id then updated else r),
          profiles := setCurrentPlan db.profiles userId planId,
          payments := db.payments ++ [payment] })
    | none =>
      let created : UserPlan :=
        { id := newRowId, userId := userId, planId := planId, startedAt := now,
          expiresAt := some expiresAt, isActive := true,
          lettersUsed := 0, audioMinutesUsed := 0 }
      (.ok created,
        { db with
          userPlans := db.userPlans ++ [created],
          profiles := setCurrentPlan db.profiles userId planId,
          payments := db.payments ++ [payment] })

/-- The `checkout.session.completed` branch of `POST /payments/webhook` in
`src/routes/payments.ts`: unconditionally insert a `succeeded` Payment whose
`reference` is the Stripe session id, upsert the `(userId, planId)`
subscription (the `update` branch resets both counters, sets the new expiry
and `startedAt: new Date()`), and point the profile at the plan.  There is
no idempotency guard: the branch never looks at existing payments, and the
`payments` table has no unique index on `reference`. -/
def handleCheckoutCompleted (db : DB) (now userId planId durationDays : Nat)
    (sessionId : String) (amountTotalCents : Int) (currency : String)
    (newRowId : Nat) : DB :=
  let expiresAt := now + durationDays * msPerDay
  let payment : Payment :=
    { userId := userId, planId := some planId,
      amount := (amountTotalCents : ℚ) / 100, currency := currency,
      status := "succeeded", provider := "stripe", reference := sessionId }
  let rows :=
    match findUserPlan db.userPlans userId planId with
    | some existing =>
      db.userPlans.map fun r =>
        if r.id = existing.id then
          { r with isActive := true, expiresAt := some expiresAt,
                   lettersUsed := 0, audioMinutesUsed := 0, startedAt := now }
        else r
    | none =>
      db.userPlans ++
        [{ id := newRowId, userId := userId, planId := planId, startedAt := now,
           expiresAt := some expiresAt, isActive := true,
           lettersUsed := 0, audioMinutesUsed := 0 }]
  { db with payments := db.payments ++ [payment],
            userPlans := rows,
            profiles := setCurrentPlan db.profiles userId planId }

/-- `findFirst` over plans `where: { isTrial: true, isActive: true }` with
`orderBy: { createdAt: 'desc' }` (from `POST /auth/register`): the most
recently created active trial plan, first row winning ties. -/
def findTrialPlan (plans : List Plan) : Option Plan :=
  (plans.filter (fun p => p.isTrial && p.isActive)).foldl
    (fun best p =>
      match best with
      | none => some p
      | some b => if b.createdAt < p.createdAt then some p else some b) none

inductive RegisterResult where
  | created (userId : Nat)
  | error (status : Nat)
deriving DecidableEq, Repr

/-- `POST /auth/register` from `src/routes/auth.ts`: validate the body,
restrict self-service roles to dreamer/interpreter, reject duplicate emails,
create the user and profile, and — for the dreamer role only — create a trial
subscription when the trial plan found by `findTrialPlan` has a truthy
`trialDurationDays` (JS truthiness: `null` and `0` both fail the check). -/
def registerUser (db : DB) (now : Nat) (email password fullName : String)
    (role : Role) (newUserId newUserPlanId : Nat) : RegisterResult × DB :=
  if email = "" ∨ password = "" ∨ fullName = "" then (.error 400, db)
  else if ¬(role = .dreamer ∨ role = .interpreter) then (.error 403, db)
  else if (db.users.find? (fun u => u.email == email)).isSome then (.error 409, db)
  else
    let user : User := { id := newUserId, email := email }
    let profile : Profile :=
      { id := newUserId, email := email, role := role, currentPlanId := none }
    let trialRows : List UserPlan :=
      if role = .dreamer then
        match findTrialPlan db.plans with
        | some tp =>
          match tp.trialDurationDays with
          | some d =>
            if d ≠ 0 then
              [{ id := newUserPlanId, userId := newUserId, planId := tp.id,
                 startedAt := now, expiresAt := some (now + d * msPerDay),
                 isActive := true, lettersUsed := 0, audioMinutesUsed := 0 }]
            else []
          | none => []
        | none => []
      else []
    (.created newUserId,
      { db with users := db.users ++ [user],
                profiles := db.profiles ++ [profile],
                userPlans := db.userPlans ++ trialRows })

/-- An inbound request's authentication evidence, as `requireAuth` in
`src/middleware/auth.ts` sees it: whether a token was supplied (header or
cookie) and whether `verifyToken` accepted it. -/
structure AuthCheck where
  tokenPresent : Bool
  tokenValid : Bool
deriving DecidableEq, Repr

/-- `requireAuth`: pass exactly when a token is present and verifies. -/
def requireAuthPasses (a : AuthCheck) : Bool :=
  a.tokenPresent && a.tokenValid

/-- The Content Handler endpoints of the spec (dreams, messages, comments,
chat, requests), one constructor per route handler in the source. -/
inductive ContentEndpoint where
  | dreamsList | dreamsCreate | dreamsAudio | dreamsStats | dreamsGet
  | dreamsPatch | dreamsDelete
  | messagesList | messagesCreate | messagesDelete
  | commentsList | commentsCreate
  | chatList | chatCreate
  | requestsList | requestsCreate | requestsGet | requestsPatch
deriving DecidableEq, Repr

/-- Which content-handler routes mount the `requireAuth` middleware in the
source.  Every route of `dreams.ts`, `messages.ts`, `chat.ts`, `requests.ts`
and `POST /comments` does; `GET /comments` (`router.get('/', async ...)` in
`src/routes/comments.ts`) mounts no middleware at all. -/
def usesRequireAuth : ContentEndpoint → Bool
  | .commentsList => false
  | _ => true

/-- The framework-level dispatch for a content endpoint: when the route
mounts `requireAuth` and the check fails, respond 401 before the handler
runs; otherwise hand over to the handler. -/
def contentAuthGate (e : ContentEndpoint) (a : AuthCheck) : Option Nat :=
  if usesRequireAuth e && !requireAuthPasses a then some 401 else none

inductive CommentsResult where
  | ok (cs : List Comment)
  | error (status : Nat)
deriving DecidableEq, Repr

/-- The `GET /comments` handler body (`src/routes/comments.ts`): no
authentication, only a `dream_id` presence check. -/
def commentsIndex (db : DB) (dreamId : Option Nat) : CommentsResult :=
  match dreamId with
  | none => .error 400
  | some did => .ok (db.comments.filter (fun c => c.dreamId == did))


/-! ### Helper lemmas about the effective-subscription selection -/

theorem filter_map_of_pred_inv {α : Type} (f : α → α) (p : α → Bool)
    (h : ∀ x, p (f x) = p x) :
    ∀ l : List α, (l.map f).filter p = (l.filter p).map f := by
  intro l
  induction l with
  | nil => rfl
  | cons x xs ih =>
    simp only [List.map_cons, List.filter_cons, h x]
    cases hx : p x <;> simp [hx, ih]

theorem foldl_moreRecent_map (g : UserPlan → UserPlan)
    (hs : ∀ r, (g r).startedAt = r.startedAt) :
    ∀ (l : List UserPlan) (acc : Option UserPlan),
      (l.map g).foldl moreRecent (acc.map g) = (l.foldl moreRecent acc).map g := by
  intro l
  induction l with
  | nil => intro acc; rfl
  | cons r rs ih =>
    intro acc
    have hstep : moreRecent (acc.map g) (g r) = (moreRecent acc r).map g := by
      cases acc with
      | none => rfl
      | some b =>
        simp only [Option.map, moreRecent, hs]
        by_cases hlt : b.startedAt < r.startedAt <;> simp [hlt]
    simp only [List.map_cons, List.foldl_cons, hstep, ih]

theorem getActiveSubscription_map (g : UserPlan → UserPlan) (userId now : Nat)
    (hq : ∀ r, subQualifies userId now (g r) = subQualifies userId now r)
    (hs : ∀ r, (g r).startedAt = r.startedAt) (rows : List UserPlan) :
    getActiveSubscription (rows.map g) userId now
      = (getActiveSubscription rows userId now).map g := by
  unfold getActiveSubscription
  rw [filter_map_of_pred_inv g _ hq]
  have h := foldl_moreRecent_map g hs (rows.filter (subQualifies userId now)) none
  simpa using h

theorem subQualifies_bumpRow (userId now subId a b : Nat) (r : UserPlan) :
    subQualifies userId now (bumpRow subId a b r) = subQualifies userId now r := by
  unfold bumpRow
  by_cases h : r.id = subId
  · rw [if_pos h]; rfl
  · rw [if_neg h]

theorem startedAt_bumpRow (subId a b : Nat) (r : UserPlan) :
    (bumpRow subId a b r).startedAt = r.startedAt := by
  unfold bumpRow
  by_cases h : r.id = subId
  · rw [if_pos h]
  · rw [if_neg h]

theorem foldl_moreRecent_spec :
    ∀ (l : List UserPlan) (acc : Option UserPlan) (s : UserPlan),
      l.foldl moreRecent acc = some s →
        (acc = some s ∨ s ∈ l) ∧
        (∀ b, acc = some b → b.startedAt ≤ s.startedAt) ∧
        (∀ r ∈ l, r.startedAt ≤ s.startedAt) := by
  intro l
  induction l with
  | nil =>
    intro acc s h
    refine ⟨Or.inl h, ?_, ?_⟩
    · intro b hb
      rw [hb] at h
      cases h
      exact le_refl _
    · intro r hr
      cases hr
  | cons r rs ih =>
    intro acc s h
    simp only [List.foldl_cons] at h
    obtain ⟨h1, h2, h3⟩ := ih (moreRecent acc r) s h
    have hr_le : r.startedAt ≤ s.startedAt := by
      cases acc with
      | none => exact h2 r rfl
      | some b =>
        by_cases hlt : b.startedAt < r.startedAt
        · exact h2 r (by simp [moreRecent, hlt])
        · exact le_trans (le_of_not_lt hlt) (h2 b (by simp [moreRecent, hlt]))
    refine ⟨?_, ?_, ?_⟩
    · cases h1 with
      | inl hm =>
        cases acc with
        | none =>
          simp only [moreRecent] at hm
          cases hm
          exact Or.inr (List.mem_cons_self _ _)
        | some b =>
          by_cases hlt : b.startedAt < r.startedAt
          · simp only [moreRecent, if_pos hlt] at hm
            cases hm
            exact Or.inr (List.mem_cons_self _ _)
          · simp only [moreRecent, if_neg hlt] at hm
            exact Or.inl hm
      | inr hm => exact Or.inr (List.mem_cons_of_mem _ hm)
    · intro b hb
      subst hb
      by_cases hlt : b.startedAt < r.startedAt
      · exact le_trans (le_of_lt hlt) (h2 r (by simp [moreRecent, hlt]))
      · exact h2 b (by simp [moreRecent, hlt])
    · intro x hx
      rcases List.mem_cons.mp hx with hx | hx
      · subst hx; exact hr_le
      · exact h3 x hx

theorem foldl_moreRecent_some :
    ∀ (l : List UserPlan) (b : UserPlan), ∃ s, l.foldl moreRecent (some b) = some s := by
  intro l
  induction l with
  | nil => intro b; exact ⟨b, rfl⟩
  | cons r rs ih =>
    intro b
    simp only [List.foldl_cons, moreRecent]
    by_cases hlt : b.startedAt < r.startedAt
    · rw [if_pos hlt]; exact ih r
    · rw [if_neg hlt]; exact ih b

theorem getActiveSubscription_spec (rows : List UserPlan) (userId now : Nat) (s : UserPlan)
    (h : getActiveSubscription rows userId now = some s) :
    s ∈ rows ∧ subQualifies userId now s = true ∧
      ∀ r ∈ rows, subQualifies userId now r = true → r.startedAt ≤ s.startedAt := by
  unfold getActiveSubscription at h
  obtain ⟨h1, _, h3⟩ := foldl_moreRecent_spec _ none s h
  cases h1 with
  | inl h1 => cases h1
  | inr h1 =>
    have hmem := List.mem_filter.mp h1
    exact ⟨hmem.1, hmem.2, fun r hr hq => h3 r (List.mem_filter.mpr ⟨hr, hq⟩)⟩

theorem getActiveSubscription_eq_none (rows : List UserPlan) (userId now : Nat) :
    getActiveSubscription rows userId now = none ↔
      rows.filter (subQualifies userId now) = [] := by
  unfold getActiveSubscription
  constructor
  · intro h
    cases hl : rows.filter (subQualifies userId now) with
    | nil => rfl
    | cons a l =>
      rw [hl] at h
      simp only [List.foldl_cons, moreRecent] at h
      obtain ⟨s, hs⟩ := foldl_moreRecent_some l a
      rw [hs] at h
      cases h
  · intro h
    rw [h]
    rfl

/-- Inversion of a successful dream creation: the 201 path implies that the
profile exists and is not privileged, an effective subscription with an
existing plan was found, every quota check passed, and the returned state
contains exactly the new dream plus the counter debit. -/
theorem postDream_created_inv (db : DB) (now userId : Nat) (title description : String)
    (am : Option ℚ) (newDreamId : Nat) (d : Dream) (db' : DB)
    (h : postDream db now userId title description am newDreamId = (.created d, db')) :
    ∃ sub plan,
      getActiveSubscription db.userPlans userId now = some sub ∧
      findPlan db sub.planId = some plan ∧
      letterQuotaBlocked plan sub (countContentLetters description) = false ∧
      audioQuotaBlocked plan sub (audioMinutesRequestedOf am) = false ∧
      maxDreamsBlocked plan db.dreams userId sub = false ∧
      d = { id := newDreamId, dreamerId := userId, interpreterId := none,
            title := title, description := description, status := "new",
            createdAt := now } ∧
      db' = { db with dreams := db.dreams ++ [d],
                      userPlans := bumpUsage db.userPlans sub.id
                        (countContentLetters description) (audioDebit am) } := by
  simp only [postDream] at h
  split at h
  · simp at h
  next hvalid =>
    split at h
    next => simp at h
    next profile hprof =>
      split at h
      next => simp at h
      next hnadmin =>
        split at h
        next => simp at h
        next sub hsub =>
          split at h
          next => simp at h
          next plan hplan =>
            split at h
            next hq => simp at h
            next hq =>
              split at h
              next ha => simp at h
              next ha =>
                split at h
                next hm => simp at h
                next hm =>
                  injection h with h1 h2
                  injection h1 with h1
                  exact ⟨sub, plan, hsub, hplan, by simpa using hq, by simpa using ha,
                    by simpa using hm, h1.symm, by rw [← h2, h1]⟩

/-! ### Sample database states used by concrete counterexamples and witnesses -/

def samplePlan : Plan :=
  { id := 2, price := 149, currency := "EGP", durationDays := 30,
    maxDreams := some 10, letterQuota := some 10, audioMinutesQuota := some 15,
    isTrial := false, trialDurationDays := none, isActive := true, createdAt := 0 }

def dreamerProfile : Profile :=
  { id := 1, email := "dreamer@example.com", role := .dreamer, currentPlanId := none }

def dbWebhook : DB :=
  { users := [], profiles := [dreamerProfile],
    plans := [samplePlan], userPlans := [], dreams := [], messages := [],
    comments := [], payments := [] }

/-- State after the first delivery of the `checkout.session.completed` event
for session `cs_123` (user 1 buys plan 2 for 30 days, 14900 cents). -/
def dbAfterFirstDelivery : DB :=
  handleCheckoutCompleted dbWebhook 1000 1 2 30 "cs_123" 14900 "EGP" 50

/-- State after the user then consumes 7 letters (a dream-creation debit). -/
def dbAfterUsage : DB :=
  { dbAfterFirstDelivery with
    userPlans := bumpUsage dbAfterFirstDelivery.userPlans 50 7 0 }

/-- State after the provider then redelivers the very same event. -/
def dbAfterReplay : DB :=
  handleCheckoutCompleted dbAfterUsage 2000 1 2 30 "cs_123" 14900 "EGP" 51

/-- Claim C1: handling the same `checkout.session.completed` webhook event
twice with the same session id should leave exactly one Payment row with
that reference and not reset the usage counters a second time.  The code has
no idempotency guard (no lookup by reference, no unique index on
`payments.reference`), so the replay inserts a second Payment row with
`reference = "cs_123"` and wipes the 7 letters consumed between the two
deliveries back to 0. -/
theorem webhook_replay_duplicates_payment :
    (dbAfterReplay.payments.filter (fun p => p.reference == "cs_123")).length = 2 ∧
    (findUserPlan dbAfterUsage.userPlans 1 2).map UserPlan.lettersUsed = some 7 ∧
    (findUserPlan dbAfterReplay.userPlans 1 2).map UserPlan.lettersUsed = some 0 := by
  decide

def adminProfile : Profile :=
  { id := 9, email := "admin@example.com", role := .admin, currentPlanId := none }

def dbAdminOnly : DB :=
  { users := [], profiles := [adminProfile],
    plans := [], userPlans := [], dreams := [], messages := [],
    comments := [], payments := [] }

/-- Claim C5: an admin / super_admin dream creation is supposed to bypass all
subscription checks and return 201 with the created dream.  In the code the
checks are indeed skipped, but the `$transaction` then evaluates
`subscription.id` with `subscription` still `undefined` (it is only assigned
inside the `if (!isAdmin)` block), so the handler always throws, the created
dream is rolled back, and the response is 500 — never 201. -/
theorem admin_dream_create_returns_500 (db : DB) (now userId : Nat)
    (title description : String) (am : Option ℚ) (newDreamId : Nat)
    (profile : Profile)
    (ht : title ≠ "") (hd : description ≠ "")
    (hp : findProfile db userId = some profile)
    (hrole : profile.role = .admin ∨ profile.role = .super_admin) :
    postDream db now userId title description am newDreamId = (.error 500 none, db) := by
  rcases hrole with h | h <;> simp [postDream, hp, ht, hd, h]

/-- Witness for C5: a concrete admin profile, non-empty title and
description, yet the handler returns 500 and leaves the database unchanged. -/
theorem admin_dream_create_returns_500_witness :
    postDream dbAdminOnly 0 9 "t" "d" none 1 = (.error 500 none, dbAdminOnly) :=
  admin_dream_create_returns_500 dbAdminOnly 0 9 "t" "d" none 1 adminProfile
    (by decide) (by decide) (by decide) (Or.inl rfl)

def dbComments : DB :=
  { users := [], profiles := [], plans := [], userPlans := [], dreams := [],
    messages := [], comments := [{ dreamId := 5, userId := 1, content := "c" }],
    payments := [] }

/-- Counterexample for C9: `GET /comments` mounts no authentication
middleware, so a request with no token at all passes the (absent) gate and
the handler logic runs, returning the dream's comments instead of 401. -/
theorem comments_list_runs_without_token :
    contentAuthGate .commentsList { tokenPresent := false, tokenValid := false } = none ∧
    commentsIndex dbComments (some 5)
      = .ok [{ dreamId := 5, userId := 1, content := "c" }] := by
  decide

/-- Claim C9 (amended): every content-handler endpoint except `GET /comments`
mounts `requireAuth` and rejects a request with a missing or invalid token
with 401 before its handler logic runs; `GET /comments` is the one
content-handler route with no token validation at all. -/
theorem content_auth_gate_except_comments :
    (∀ e : ContentEndpoint, usesRequireAuth e = false ↔ e = .commentsList) ∧
    (∀ (e : ContentEndpoint) (a : AuthCheck), e ≠ .commentsList →
       requireAuthPasses a = false → contentAuthGate e a = some 401) ∧
    (∀ a : AuthCheck, contentAuthGate .commentsList a = none) := by
  refine ⟨?_, ?_, ?_⟩
  · intro e
    cases e <;> simp [usesRequireAuth]
  · intro e a he hfail
    have hru : usesRequireAuth e = true := by
      cases e <;> simp_all [usesRequireAuth]
    simp [contentAuthGate, hru, hfail]
  · intro a
    simp [contentAuthGate, usesRequireAuth]

/-- Witness for C9's amended theorem: `POST /dreams` with no token is
rejected with 401. -/
theorem content_auth_gate_except_comments_witness :
    contentAuthGate .dreamsCreate { tokenPresent := false, tokenValid := false } = some 401 :=
  content_auth_gate_except_comments.2.1 .dreamsCreate
    { tokenPresent := false, tokenValid := false } (by decide) (by decide)

/-- Claim C2: for a non-admin user with an effective subscription whose plan
carries a letter quota, a dream whose description would push `lettersUsed`
over the quota is rejected with 403 / QUOTA_EXCEEDED and the database is
untouched; and every successful creation appends exactly the new dream and
debits the counters of the effective subscription in the same transaction —
both effects or neither. -/
theorem dream_quota_denied_or_atomic :
    (∀ (db : DB) (now userId : Nat) (title description : String) (am : Option ℚ)
       (newDreamId : Nat) (profile : Profile) (sub : UserPlan) (plan : Plan) (q : Nat),
       title ≠ "" → description ≠ "" →
       findProfile db userId = some profile →
       ¬(profile.role = .admin ∨ profile.role = .super_admin) →
       getActiveSubscription db.userPlans userId now = some sub →
       findPlan db sub.planId = some plan →
       plan.letterQuota = some q →
       q < sub.lettersUsed + countContentLetters description →
       postDream db now userId title description am newDreamId
         = (.error 403 (some "QUOTA_EXCEEDED"), db)) ∧
    (∀ (db : DB) (now userId : Nat) (title description : String) (am : Option ℚ)
       (newDreamId : Nat) (d : Dream) (db' : DB),
       postDream db now userId title description am newDreamId = (.created d, db') →
       db'.dreams = db.dreams ++ [d] ∧
       ∃ sub, getActiveSubscription db.userPlans userId now = some sub ∧
         db'.userPlans = bumpUsage db.userPlans sub.id (countContentLetters description)
           (audioDebit am)) := by
  constructor
  · intro db now userId title description am newDreamId profile sub plan q
      ht hd hp hrole hsub hplan hq hover
    have hblocked : letterQuotaBlocked plan sub (countContentLetters description) = true := by
      simp [letterQuotaBlocked, hq, hover]
    simp [postDream, hp, hsub, hplan, ht, hd, hrole, hblocked]
  · intro db now userId title description am newDreamId d db' h
    obtain ⟨sub, plan, hsub, hplan, _, _, _, hdd, hdb⟩ :=
      postDream_created_inv _ _ _ _ _ _ _ _ _ h
    subst hdb
    exact ⟨rfl, sub, hsub, rfl⟩

def quotaSub : UserPlan :=
  { id := 40, userId := 1, planId := 2, startedAt := 0, expiresAt := none,
    isActive := true, lettersUsed := 7, audioMinutesUsed := 0 }

def dbQuota : DB :=
  { users := [], profiles := [dreamerProfile], plans := [samplePlan],
    userPlans := [quotaSub], dreams := [], messages := [], comments := [],
    payments := [] }

/-- Witness for C2: a plan with `letterQuota = 10`, `lettersUsed = 7`, and a
5-letter description is denied with QUOTA_EXCEEDED, database unchanged; a
2-letter description succeeds with both the dream row and the debit. -/
theorem dream_quota_denied_or_atomic_witness :
    (postDream dbQuota 5 1 "t" "12345" none 60
       = (.error 403 (some "QUOTA_EXCEEDED"), dbQuota)) ∧
    ((postDream dbQuota 5 1 "t" "هد" none 60).2.userPlans
       = bumpUsage dbQuota.userPlans 40 2 0) := by
  constructor
  · exact dream_quota_denied_or_atomic.1 dbQuota 5 1 "t" "12345" none 60
      dreamerProfile quotaSub samplePlan 10
      (by decide) (by decide) (by decide) (by decide) (by decide) (by decide) rfl (by decide)
  · have h : postDream dbQuota 5 1 "t" "هد" none 60
        = ((postDream dbQuota 5 1 "t" "هد" none 60).1,
           (postDream dbQuota 5 1 "t" "هد" none 60).2) := rfl
    obtain ⟨h1, sub, hsub, h2⟩ :=
      dream_quota_denied_or_atomic.2 dbQuota 5 1 "t" "هد" none 60
        ((postDream dbQuota 5 1 "t" "هد" none 60).1.casesOn
          (motive := fun _ => Dream) (fun dr => dr)
          (fun _ _ => { id := 0, dreamerId := 0, interpreterId := none, title := "",
                        description := "", status := "", createdAt := 0 }))
        (postDream dbQuota 5 1 "t" "هد" none 60).2 (by decide)
    have hs : sub = quotaSub := by
      have : getActiveSubscription dbQuota.userPlans 1 5 = some quotaSub := by decide
      rw [this] at hsub
      exact (Option.some.inj hsub).symm
    rw [h2, hs]
    decide

/-- Claim C4: a non-admin user with no active, unexpired subscription row is
denied with 402 / NO_ACTIVE_SUBSCRIPTION, and the subscription the quota
checks consult is the most-recently-started (`startedAt` descending) row
among the active, unexpired ones — `getActiveSubscription` returns a
qualifying row of maximal `startedAt`, and returns none exactly when no row
qualifies. -/
theorem no_active_subscription_gate :
    (∀ (db : DB) (now userId : Nat) (title description : String) (am : Option ℚ)
       (newDreamId : Nat) (profile : Profile),
       title ≠ "" → description ≠ "" →
       findProfile db userId = some profile →
       ¬(profile.role = .admin ∨ profile.role = .super_admin) →
       db.userPlans.filter (subQualifies userId now) = [] →
       postDream db now userId title description am newDreamId
         = (.error 402 (some "NO_ACTIVE_SUBSCRIPTION"), db)) ∧
    (∀ (rows : List UserPlan) (userId now : Nat) (s : UserPlan),
       getActiveSubscription rows userId now = some s →
       s ∈ rows ∧ subQualifies userId now s = true ∧
         ∀ r ∈ rows, subQualifies userId now r = true → r.startedAt ≤ s.startedAt) ∧
    (∀ (rows : List UserPlan) (userId now : Nat),
       getActiveSubscription rows userId now = none ↔
         rows.filter (subQualifies userId now) = []) := by
  refine ⟨?_, getActiveSubscription_spec, getActiveSubscription_eq_none⟩
  intro db now userId title description am newDreamId profile ht hd hp hrole hfilter
  have hnone : getActiveSubscription db.userPlans userId now = none :=
    (getActiveSubscription_eq_none db.userPlans userId now).mpr hfilter
  simp [postDream, hp, hnone, ht, hd, hrole]

def expiredSub : UserPlan :=
  { id := 41, userId := 1, planId := 2, startedAt := 0, expiresAt := some 10,
    isActive := true, lettersUsed := 0, audioMinutesUsed := 0 }

def olderSub : UserPlan :=
  { id := 42, userId := 1, planId := 2, startedAt := 100, expiresAt := none,
    isActive := true, lettersUsed := 3, audioMinutesUsed := 0 }

def newerSub : UserPlan :=
  { id := 43, userId := 1, planId := 3, startedAt := 200, expiresAt := none,
    isActive := true, lettersUsed := 0, audioMinutesUsed := 0 }

def dbExpired : DB :=
  { users := [], profiles := [dreamerProfile], plans := [samplePlan],
    userPlans := [expiredSub], dreams := [], messages := [], comments := [],
    payments := [] }

/-- Witness for C4: at `now = 99` the only subscription row is expired
(`expiresAt = 10`), so dream creation is denied with 402; and over a
two-row table the selection picks the row with the larger `startedAt`. -/
theorem no_active_subscription_gate_witness :
    (postDream dbExpired 99 1 "t" "d" none 7
       = (.error 402 (some "NO_ACTIVE_SUBSCRIPTION"), dbExpired)) ∧
    subQualifies 1 50 newerSub = true ∧
    newerSub ∈ [olderSub, newerSub] := by
  refine ⟨?_, ?_, ?_⟩
  · exact no_active_subscription_gate.1 dbExpired 99 1 "t" "d" none 7 dreamerProfile
      (by decide) (by decide) (by decide) (by decide) (by decide)
  · exact (no_active_subscription_gate.2.1 [olderSub, newerSub] 1 50 newerSub (by decide)).2.1
  · exact (no_active_subscription_gate.2.1 [olderSub, newerSub] 1 50 newerSub (by decide)).1

def superAdminProfile : Profile :=
  { id := 9, email := "root@example.com", role := .super_admin, currentPlanId := none }

def interpreterProfile : Profile :=
  { id := 2, email := "interp@example.com", role := .interpreter, currentPlanId := none }

def dreamNoInterp : Dream :=
  { id := 7, dreamerId := 1, interpreterId := none, title := "t",
    description := "d", status := "new", createdAt := 0 }

def dbNoInterp : DB :=
  { users := [], profiles := [dreamerProfile, interpreterProfile, superAdminProfile],
    plans := [], userPlans := [], dreams := [dreamNoInterp],
    messages := [{ dreamId := 7, senderId := 1, content := "m" }],
    comments := [], payments := [] }

/-- Counterexample for C6: on a dream with no assigned interpreter, even a
super_admin requester is rejected when *sending* a message — the
`POST /messages` gate `if (!dream.interpreterId)` fires before any role is
consulted, so the claim that both read and write are allowed for
super_admin is false on the write path. -/
theorem super_admin_send_blocked_without_interpreter :
    postMessage dbNoInterp 9 (some 7) (some "hi") none
      = (.error 403 (some "NO_INTERPRETER_ASSIGNED"), dbNoInterp) := by
  decide

/-- Claim C6 (amended): on a dream with no assigned interpreter, reading
messages is rejected (403) for dreamer- and interpreter-role requesters and
allowed for a super_admin, but sending a message is rejected (403,
NO_INTERPRETER_ASSIGNED) for every requester, super_admin included: the
super_admin exemption from the no-interpreter gate exists only on the read
path. -/
theorem messaging_no_interpreter_gate (db : DB) (did : Nat) (dream : Dream)
    (hfind : db.dreams.find? (fun d => d.id == did) = some dream)
    (hint : dream.interpreterId = none) :
    (∀ userId profile, findProfile db userId = some profile →
       (profile.role = .dreamer ∨ profile.role = .interpreter) →
       getMessages db userId (some did) = .error 403 none) ∧
    (∀ userId profile, findProfile db userId = some profile →
       profile.role = .super_admin →
       getMessages db userId (some did)
         = .ok (db.messages.filter (fun m => m.dreamId == did))) ∧
    (∀ userId (c : String) (a : Option String),
       postMessage db userId (some did) (some c) a
         = (.error 403 (some "NO_INTERPRETER_ASSIGNED"), db)) := by
  refine ⟨?_, ?_, ?_⟩
  · intro userId profile hp hrole
    rcases hrole with h | h <;>
      by_cases hd : dream.dreamerId = userId <;>
        simp [getMessages, hfind, hp, h, hint, hd]
  · intro userId profile hp hrole
    simp [getMessages, hfind, hp, hrole, hint]
  · intro userId c a
    simp [postMessage, hfind, hint]

/-- Witness for C6's amended theorem at the concrete no-interpreter dream:
the dreamer cannot read, an interpreter cannot read, the super_admin can
read, and the super_admin still cannot send. -/
theorem messaging_no_interpreter_gate_witness :
    (getMessages dbNoInterp 1 (some 7) = .error 403 none) ∧
    (getMessages dbNoInterp 2 (some 7) = .error 403 none) ∧
    (getMessages dbNoInterp 9 (some 7)
       = .ok [{ dreamId := 7, senderId := 1, content := "m" }]) ∧
    (postMessage dbNoInterp 9 (some 7) (some "hi") none
       = (.error 403 (some "NO_INTERPRETER_ASSIGNED"), dbNoInterp)) := by
  have h := messaging_no_interpreter_gate dbNoInterp 7 dreamNoInterp (by decide) (by decide)
  refine ⟨h.1 1 dreamerProfile (by decide) (Or.inl rfl),
          h.1 2 interpreterProfile (by decide) (Or.inr rfl),
          ?_, h.2.2 9 "hi" none⟩
  have h2 := h.2.1 9 superAdminProfile (by decide) rfl
  simpa using h2

theorem find?_map_pred {α : Type} (f : α → α) (p : α → Bool)
    (hp : ∀ x, p (f x) = p x) :
    ∀ l : List α, (l.map f).find? p = (l.find? p).map f := by
  intro l
  induction l with
  | nil => rfl
  | cons x xs ih =>
    rw [List.map_cons]
    cases hx : p x with
    | true =>
      rw [List.find?_cons_of_pos _ (by rw [hp x]; exact hx),
          List.find?_cons_of_pos _ hx]
      rfl
    | false =>
      rw [List.find?_cons_of_neg _ (by simp [hp x, hx]),
          List.find?_cons_of_neg _ (by simp [hx])]
      exact ih

/-- If `r` is the `(userId, planId)` row of the table and row ids are unique,
then mapping an update that touches only rows with `r`'s id relocates the
lookup to the updated row. -/
theorem findUserPlan_map_update (rows : List UserPlan) (uid pid : Nat) (r : UserPlan)
    (g : UserPlan → UserPlan)
    (hfind : findUserPlan rows uid pid = some r)
    (hid : ∀ x ∈ rows, x.id = r.id → x = r)
    (hg_other : ∀ x, x.id ≠ r.id → g x = x)
    (hg_u : (g r).userId = r.userId) (hg_p : (g r).planId = r.planId) :
    findUserPlan (rows.map g) uid pid = some (g r) := by
  have hpred : (r.userId == uid && r.planId == pid) = true := by
    have h := List.find?_some hfind
    simpa [findUserPlan] using h
  induction rows with
  | nil => simp [findUserPlan] at hfind
  | cons y ys ih =>
    simp only [findUserPlan, List.map_cons, List.find?] at hfind ⊢
    cases hy : (y.userId == uid && y.planId == pid) with
    | true =>
      simp only [hy, Option.some.injEq] at hfind
      subst hfind
      have hg : ((g y).userId == uid && (g y).planId == pid) = true := by
        rw [hg_u, hg_p]; exact hy
      simp [hg]
    | false =>
      simp only [hy] at hfind
      have hyne : y.id ≠ r.id := by
        intro he
        have hy_eq := hid y (List.mem_cons_self _ _) he
        rw [hy_eq, hpred] at hy
        cases hy
      rw [hg_other y hyne]
      simp only [hy]
      exact ih hfind (fun x hx he => hid x (List.mem_cons_of_mem _ hx) he)

/-- Looking up a profile after the current-plan pointer update. -/
theorem setCurrentPlan_find (profiles : List Profile) (uid pid : Nat) (prof : Profile)
    (hp : profiles.find? (fun p => p.id == uid) = some prof) :
    (setCurrentPlan profiles uid pid).find? (fun p => p.id == uid)
      = some { prof with currentPlanId := some pid } := by
  unfold setCurrentPlan
  rw [find?_map_pred _ _ (fun x => by by_cases hx : x.id = uid <;> simp [hx]), hp]
  have hid : prof.id = uid := by simpa using List.find?_some hp
  simp [hid]
def resubRow : UserPlan :=
  { id := 44, userId := 1, planId := 2, startedAt := 1000, expiresAt := some 5000,
    isActive := true, lettersUsed := 5, audioMinutesUsed := 1 }

def dbResub : DB :=
  { users := [], profiles := [dreamerProfile], plans := [samplePlan],
    userPlans := [resubRow], dreams := [], messages := [], comments := [],
    payments := [] }

/-- The `update` branch of the `POST /plans/subscribe` upsert: new expiry,
re-activation, both counters zeroed — `startedAt` not among the updated
fields. -/
def manualRenewal (r : UserPlan) (expiresAt : Nat) : UserPlan :=
  { r with expiresAt := some expiresAt, isActive := true,
           lettersUsed := 0, audioMinutesUsed := 0 }

/-- The `update` branch of the webhook upsert: same as the manual renewal
plus `startedAt: new Date()`. -/
def webhookRenewal (r : UserPlan) (now expiresAt : Nat) : UserPlan :=
  { r with isActive := true, expiresAt := some expiresAt,
           lettersUsed := 0, audioMinutesUsed := 0, startedAt := now }

/-- Counterexample for C7: re-subscribing to an already-held plan through
`POST /plans/subscribe` at `now = 999000` leaves the row's `startedAt` at its
old value 1000 — the `update` branch of that upsert never touches
`startedAt`, so the subscription window's start is *not* reset on the manual
path (only the webhook path resets it). -/
theorem manual_resubscribe_keeps_startedAt :
    ((subscribe dbResub 999000 1 2 77 "SUB-999").2.userPlans.map UserPlan.startedAt
      = [1000]) ∧ (1000 : Nat) ≠ 999000 := by
  decide

/-- Claim C7 (amended): re-subscribing to an already-held plan resets both
usage counters to zero, re-activates the row, sets the new expiry from the
plan duration, and updates the profile's current-plan pointer — on both the
manual `POST /plans/subscribe` path and the webhook path; but only the
webhook path resets `startedAt` to the activation instant, while the manual
path leaves the subscription window's start unchanged. -/
theorem resubscribe_resets_usage :
    (∀ (r : UserPlan) (e : Nat), (manualRenewal r e).startedAt = r.startedAt ∧
       (manualRenewal r e).lettersUsed = 0 ∧ (manualRenewal r e).audioMinutesUsed = 0 ∧
       (manualRenewal r e).expiresAt = some e ∧ (manualRenewal r e).isActive = true) ∧
    (∀ (r : UserPlan) (now e : Nat), (webhookRenewal r now e).startedAt = now ∧
       (webhookRenewal r now e).lettersUsed = 0 ∧
       (webhookRenewal r now e).audioMinutesUsed = 0 ∧
       (webhookRenewal r now e).expiresAt = some e ∧
       (webhookRenewal r now e).isActive = true) ∧
    (∀ (db : DB) (now userId planId newRowId : Nat) (ref : String)
       (plan : Plan) (r : UserPlan) (prof : Profile),
       findPlan db planId = some plan →
       findUserPlan db.userPlans userId planId = some r →
       (∀ x ∈ db.userPlans, x.id = r.id → x = r) →
       findProfile db userId = some prof →
       (subscribe db now userId planId newRowId ref).1
           = .ok (manualRenewal r (now + plan.durationDays * msPerDay)) ∧
       findUserPlan (subscribe db now userId planId newRowId ref).2.userPlans userId planId
           = some (manualRenewal r (now + plan.durationDays * msPerDay)) ∧
       findProfile (subscribe db now userId planId newRowId ref).2 userId
           = some { prof with currentPlanId := some planId }) ∧
    (∀ (db : DB) (now userId planId durationDays newRowId : Nat) (sid cur : String)
       (amt : Int) (r : UserPlan) (prof : Profile),
       findUserPlan db.userPlans userId planId = some r →
       (∀ x ∈ db.userPlans, x.id = r.id → x = r) →
       findProfile db userId = some prof →
       findUserPlan (handleCheckoutCompleted db now userId planId durationDays
             sid amt cur newRowId).userPlans userId planId
           = some (webhookRenewal r now (now + durationDays * msPerDay)) ∧
       findProfile (handleCheckoutCompleted db now userId planId durationDays
             sid amt cur newRowId) userId
           = some { prof with currentPlanId := some planId }) := by
  refine ⟨fun r e => ⟨rfl, rfl, rfl, rfl, rfl⟩,
          fun r now e => ⟨rfl, rfl, rfl, rfl, rfl⟩, ?_, ?_⟩
  · intro db now userId planId newRowId ref plan r prof hplan hr hid hprof
    simp only [subscribe, hplan, hr]
    refine ⟨rfl, ?_, ?_⟩
    · have h := findUserPlan_map_update db.userPlans userId planId r
        (fun x => if x.id = r.id then manualRenewal r (now + plan.durationDays * msPerDay)
                  else x)
        hr hid (fun x hx => if_neg hx) (by simp [manualRenewal]) (by simp [manualRenewal])
      simp only [manualRenewal] at h ⊢
      simpa using h
    · exact setCurrentPlan_find db.profiles userId planId prof hprof
  · intro db now userId planId durationDays newRowId sid cur amt r prof hr hid hprof
    simp only [handleCheckoutCompleted, hr]
    constructor
    · have h := findUserPlan_map_update db.userPlans userId planId r
        (fun x => if x.id = r.id then webhookRenewal x now (now + durationDays * msPerDay)
                  else x)
        hr hid (fun x hx => if_neg hx) (by simp [webhookRenewal]) (by simp [webhookRenewal])
      simp only [webhookRenewal] at h ⊢
      simpa using h
    · exact setCurrentPlan_find db.profiles userId planId prof hprof

/-- Witness for C7's amended theorem at a concrete re-subscription. -/
theorem resubscribe_resets_usage_witness :
    ((subscribe dbResub 999000 1 2 77 "SUB-999").1
       = .ok (manualRenewal resubRow (999000 + 30 * msPerDay))) ∧
    (findUserPlan (handleCheckoutCompleted dbResub 999000 1 2 30 "cs_9" 14900
         "EGP" 90).userPlans 1 2
       = some (webhookRenewal resubRow 999000 (999000 + 30 * msPerDay))) := by
  constructor
  · exact (resubscribe_resets_usage.2.2.1 dbResub 999000 1 2 77 "SUB-999" samplePlan
      resubRow dreamerProfile (by decide) (by decide)
      (by intro x hx he; have hx2 : x ∈ [resubRow] := hx; simp at hx2; exact hx2) (by decide)).1
  · exact (resubscribe_resets_usage.2.2.2 dbResub 999000 1 2 30 90 "cs_9" "EGP" 14900
      resubRow dreamerProfile (by decide)
      (by intro x hx he; have hx2 : x ∈ [resubRow] := hx; simp at hx2; exact hx2) (by decide)).1

theorem foldl_trialPick_spec :
    ∀ (l : List Plan) (acc : Option Plan) (s : Plan),
      l.foldl (fun best p =>
        match best with
        | none => some p
        | some b => if b.createdAt < p.createdAt then some p else some b) acc = some s →
      (acc = some s ∨ s ∈ l) ∧
      (∀ b, acc = some b → b.createdAt ≤ s.createdAt) ∧
      (∀ r ∈ l, r.createdAt ≤ s.createdAt) := by
  intro l
  induction l with
  | nil =>
    intro acc s h
    refine ⟨Or.inl h, ?_, ?_⟩
    · intro b hb
      rw [hb] at h
      cases h
      exact le_refl _
    · intro r hr
      cases hr
  | cons r rs ih =>
    intro acc s h
    simp only [List.foldl_cons] at h
    obtain ⟨h1, h2, h3⟩ := ih _ s h
    have hr_le : r.createdAt ≤ s.createdAt := by
      cases acc with
      | none => exact h2 r rfl
      | some b =>
        by_cases hlt : b.createdAt < r.createdAt
        · exact h2 r (by simp [hlt])
        · exact le_trans (le_of_not_lt hlt) (h2 b (by simp [hlt]))
    refine ⟨?_, ?_, ?_⟩
    · cases h1 with
      | inl hm =>
        cases acc with
        | none =>
          simp only [] at hm
          cases hm
          exact Or.inr (List.mem_cons_self _ _)
        | some b =>
          by_cases hlt : b.createdAt < r.createdAt
          · simp only [if_pos hlt] at hm
            cases hm
            exact Or.inr (List.mem_cons_self _ _)
          · simp only [if_neg hlt] at hm
            exact Or.inl hm
      | inr hm => exact Or.inr (List.mem_cons_of_mem _ hm)
    · intro b hb
      subst hb
      by_cases hlt : b.createdAt < r.createdAt
      · exact le_trans (le_of_lt hlt) (h2 r (by simp [hlt]))
      · exact h2 b (by simp [hlt])
    · intro x hx
      rcases List.mem_cons.mp hx with hx | hx
      · subst hx; exact hr_le
      · exact h3 x hx

def trialOld : Plan :=
  { id := 11, price := 0, currency := "EGP", durationDays := 30, maxDreams := none,
    letterQuota := some 1500, audioMinutesQuota := none, isTrial := true,
    trialDurationDays := some 7, isActive := true, createdAt := 1 }

def trialNew : Plan :=
  { id := 12, price := 0, currency := "EGP", durationDays := 30, maxDreams := none,
    letterQuota := none, audioMinutesQuota := none, isTrial := true,
    trialDurationDays := none, isActive := true, createdAt := 2 }

def dbTrialPair : DB :=
  { users := [], profiles := [], plans := [trialOld, trialNew], userPlans := [],
    dreams := [], messages := [], comments := [], payments := [] }

def dbTrialSingle : DB :=
  { users := [], profiles := [], plans := [trialOld], userPlans := [],
    dreams := [], messages := [], comments := [], payments := [] }

/-- The user row created by `POST /auth/register`. -/
def newUserRow (uid : Nat) (email : String) : User :=
  { id := uid, email := email }

/-- The profile row created by `POST /auth/register`. -/
def newProfileRow (uid : Nat) (email : String) (role : Role) : Profile :=
  { id := uid, email := email, role := role, currentPlanId := none }

/-- The trial subscription row created by `POST /auth/register`: zero usage,
starting now, expiring `trialDurationDays` days later. -/
def trialSubRow (upid uid planId now d : Nat) : UserPlan :=
  { id := upid, userId := uid, planId := planId, startedAt := now,
    expiresAt := some (now + d * msPerDay), isActive := true,
    lettersUsed := 0, audioMinutesUsed := 0 }

/-- Counterexample for C8: an active trial Plan with a configured trial
duration exists (`trialOld`, 7 days), but registration creates no
subscription, because the code takes the most recently created active trial
plan (`trialNew`) and only then checks `trialDurationDays`, which is null on
that plan. -/
theorem register_trial_plan_missed :
    (dbTrialPair.plans.any
       (fun p => p.isTrial && p.isActive && p.trialDurationDays.isSome)) = true ∧
    (registerUser dbTrialPair 0 "new@example.com" "pw" "N" .dreamer 100 101).1
      = .created 100 ∧
    (registerUser dbTrialPair 0 "new@example.com" "pw" "N" .dreamer 100 101).2.userPlans
      = [] := by
  decide

/-- Claim C8 (amended): registration as a dreamer consults the most recently
created active trial plan (`findTrialPlan`); when that plan has a nonzero
`trialDurationDays = d`, a subscription for it is created with zero usage,
`startedAt` = the registration instant and `expiresAt` exactly `d` days
later (independent of the plan's `durationDays`); when that plan has a null
or zero trial duration — even if an older active trial plan has one — or no
active trial plan exists, registration still succeeds with no subscription;
non-dreamer registrations never create a trial subscription. -/
theorem register_trial_assignment :
    (∀ (plans : List Plan) (tp : Plan), findTrialPlan plans = some tp →
       tp ∈ plans ∧ tp.isTrial = true ∧ tp.isActive = true ∧
       ∀ p ∈ plans, p.isTrial = true → p.isActive = true →
         p.createdAt ≤ tp.createdAt) ∧
    (∀ (db : DB) (now : Nat) (email pw fn : String) (uid upid : Nat)
       (tp : Plan) (d : Nat),
       email ≠ "" → pw ≠ "" → fn ≠ "" →
       db.users.find? (fun u => u.email == email) = none →
       findTrialPlan db.plans = some tp →
       tp.trialDurationDays = some d → d ≠ 0 →
       registerUser db now email pw fn .dreamer uid upid
         = (.created uid,
            { db with users := db.users ++ [newUserRow uid email],
                      profiles := db.profiles ++ [newProfileRow uid email .dreamer],
                      userPlans := db.userPlans ++ [trialSubRow upid uid tp.id now d] })) ∧
    (∀ (db : DB) (now : Nat) (email pw fn : String) (uid upid : Nat),
       email ≠ "" → pw ≠ "" → fn ≠ "" →
       db.users.find? (fun u => u.email == email) = none →
       (findTrialPlan db.plans = none ∨
        ∃ tp, findTrialPlan db.plans = some tp ∧
          (tp.trialDurationDays = none ∨ tp.trialDurationDays = some 0)) →
       registerUser db now email pw fn .dreamer uid upid
         = (.created uid,
            { db with users := db.users ++ [newUserRow uid email],
                      profiles := db.profiles ++ [newProfileRow uid email .dreamer] })) ∧
    (∀ (db : DB) (now : Nat) (email pw fn : String) (uid upid : Nat),
       email ≠ "" → pw ≠ "" → fn ≠ "" →
       db.users.find? (fun u => u.email == email) = none →
       registerUser db now email pw fn .interpreter uid upid
         = (.created uid,
            { db with users := db.users ++ [newUserRow uid email],
                      profiles := db.profiles ++ [newProfileRow uid email .interpreter] })) := by
  refine ⟨?_, ?_, ?_, ?_⟩
  · intro plans tp h
    unfold findTrialPlan at h
    obtain ⟨h1, _, h3⟩ := foldl_trialPick_spec _ none tp h
    cases h1 with
    | inl h1 => cases h1
    | inr h1 =>
      have hmem := List.mem_filter.mp h1
      have hflags : tp.isTrial = true ∧ tp.isActive = true := by
        have := hmem.2
        simp at this
        exact this
      exact ⟨hmem.1, hflags.1, hflags.2,
        fun p hp hpt hpa =>
          h3 p (List.mem_filter.mpr ⟨hp, by simp [hpt, hpa]⟩)⟩
  · intro db now email pw fn uid upid tp d h1 h2 h3 hdup htp hd hdnz
    simp [registerUser, h1, h2, h3, hdup, htp, hd, hdnz,
      newUserRow, newProfileRow, trialSubRow]
  · intro db now email pw fn uid upid h1 h2 h3 hdup hmiss
    rcases hmiss with htp | ⟨tp, htp, hdur⟩
    · simp [registerUser, h1, h2, h3, hdup, htp, newUserRow, newProfileRow]
    · rcases hdur with hdur | hdur <;>
        simp [registerUser, h1, h2, h3, hdup, htp, hdur, newUserRow, newProfileRow]
  · intro db now email pw fn uid upid h1 h2 h3 hdup
    simp [registerUser, h1, h2, h3, hdup, newUserRow, newProfileRow]

/-- Witness for C8's amended theorem: with a single active trial plan of 7
days, registering a dreamer creates exactly the trial subscription row
(zero usage, expiry 7 days after the registration instant). -/
theorem register_trial_assignment_witness :
    (registerUser dbTrialSingle 0 "new@example.com" "pw" "N" .dreamer 100 101).2.userPlans
      = [trialSubRow 101 100 11 0 7] := by
  have h := register_trial_assignment.2.1 dbTrialSingle 0 "new@example.com" "pw" "N"
    100 101 trialOld 7 (by decide) (by decide) (by decide) (by decide) (by decide)
    rfl (by decide)
  rw [h]
  decide

/-- Claim C10: `audioMinutes` is ceiled (`Math.ceil(Number(audioMinutes))`)
before both the audio-quota comparison and the `audioMinutesUsed` debit;
when the field is absent, zero, or its ceiling is zero, the audio-quota
check can never fire and a successful creation leaves `audioMinutesUsed`
unchanged (only `lettersUsed` is debited). -/
theorem audio_minutes_ceil_semantics :
    (∀ (db : DB) (now userId : Nat) (title description : String) (v : ℚ)
       (newDreamId : Nat) (profile : Profile) (sub : UserPlan) (plan : Plan) (qa : Nat),
       title ≠ "" → description ≠ "" →
       findProfile db userId = some profile →
       ¬(profile.role = .admin ∨ profile.role = .super_admin) →
       getActiveSubscription db.userPlans userId now = some sub →
       findPlan db sub.planId = some plan →
       letterQuotaBlocked plan sub (countContentLetters description) = false →
       0 < ⌈v⌉ →
       plan.audioMinutesQuota = some qa →
       (qa : Int) < (sub.audioMinutesUsed : Int) + ⌈v⌉ →
       postDream db now userId title description (some v) newDreamId
         = (.error 403 (some "AUDIO_QUOTA_EXCEEDED"), db)) ∧
    (∀ (db : DB) (now userId : Nat) (title description : String) (v : ℚ)
       (newDreamId : Nat) (d : Dream) (db' : DB),
       postDream db now userId title description (some v) newDreamId = (.created d, db') →
       0 < ⌈v⌉ →
       ∃ sub, getActiveSubscription db.userPlans userId now = some sub ∧
         db'.userPlans = bumpUsage db.userPlans sub.id
           (countContentLetters description) (⌈v⌉).toNat) ∧
    (∀ (db : DB) (now userId : Nat) (title description : String) (am : Option ℚ)
       (newDreamId : Nat),
       (am = none ∨ am = some 0 ∨ ∃ v, am = some v ∧ ⌈v⌉ = 0) →
       (∀ r, postDream db now userId title description am newDreamId
          ≠ (.error 403 (some "AUDIO_QUOTA_EXCEEDED"), r)) ∧
       (∀ (d : Dream) (db' : DB),
          postDream db now userId title description am newDreamId = (.created d, db') →
          ∃ sub, getActiveSubscription db.userPlans userId now = some sub ∧
            db'.userPlans = bumpUsage db.userPlans sub.id
              (countContentLetters description) 0)) := by
  refine ⟨?_, ?_, ?_⟩
  · intro db now userId title description v newDreamId profile sub plan qa
      ht hd hp hrole hsub hplan hletter hpos hqa hover
    have hv : v ≠ 0 := by
      intro h0
      rw [h0] at hpos
      simp at hpos
    have hreq : audioMinutesRequestedOf (some v) = ⌈v⌉ := by
      simp [audioMinutesRequestedOf, hv]
    have hblocked : audioQuotaBlocked plan sub (audioMinutesRequestedOf (some v)) = true := by
      rw [hreq]
      simp [audioQuotaBlocked, hpos, hqa]
      exact hover
    simp [postDream, hp, hsub, hplan, ht, hd, hrole, hletter, hblocked]
  · intro db now userId title description v newDreamId d db' h hpos
    obtain ⟨sub, plan, hsub, hplan, _, _, _, hdd, hdb⟩ :=
      postDream_created_inv _ _ _ _ _ _ _ _ _ h
    subst hdb
    refine ⟨sub, hsub, ?_⟩
    have hv : v ≠ 0 := by
      intro h0
      rw [h0] at hpos
      simp at hpos
    have hda : audioDebit (some v) = (⌈v⌉).toNat := by
      simp [audioDebit, audioMinutesRequestedOf, hv, hpos]
    rw [hda]
  · intro db now userId title description am newDreamId hskip
    have hreq : audioMinutesRequestedOf am = 0 := by
      rcases hskip with h | h | ⟨v, hv, hc⟩
      · rw [h]; rfl
      · rw [h]; simp [audioMinutesRequestedOf]
      · rw [hv]
        by_cases hv0 : v = 0 <;> simp [audioMinutesRequestedOf, hv0, hc]
    constructor
    · intro r h
      simp only [postDream] at h
      split at h
      · simp at h
      next =>
        split at h
        next => simp at h
        next profile hprof =>
          split at h
          · simp at h
          next =>
            split at h
            next => simp at h
            next sub hsub =>
              split at h
              next => simp at h
              next plan hplan =>
                split at h
                next => simp at h
                next =>
                  split at h
                  next haq =>
                    rw [hreq] at haq
                    simp [audioQuotaBlocked] at haq
                  next =>
                    split at h
                    next => simp at h
                    next => simp at h
    · intro d db' h
      obtain ⟨sub, plan, hsub, hplan, _, _, _, hdd, hdb⟩ :=
        postDream_created_inv _ _ _ _ _ _ _ _ _ h
      subst hdb
      refine ⟨sub, hsub, ?_⟩
      have hda : audioDebit am = 0 := by
        simp [audioDebit, hreq]
      rw [hda]

def audioSub : UserPlan :=
  { id := 45, userId := 1, planId := 2, startedAt := 0, expiresAt := none,
    isActive := true, lettersUsed := 0, audioMinutesUsed := 13 }

def dbAudioQuota : DB :=
  { users := [], profiles := [dreamerProfile], plans := [samplePlan],
    userPlans := [audioSub], dreams := [], messages := [], comments := [],
    payments := [] }

/-- Witness for C10: a fractional `audioMinutes = 5/2` is ceiled to 3, so
with 13 of 15 minutes used the request is denied with AUDIO_QUOTA_EXCEEDED;
and `audioMinutes = -1/3` (ceiling 0) can never produce that denial. -/
theorem audio_minutes_ceil_semantics_witness :
    (postDream dbAudioQuota 5 1 "t" "d" (some (5/2 : ℚ)) 60
       = (.error 403 (some "AUDIO_QUOTA_EXCEEDED"), dbAudioQuota)) ∧
    (postDream dbAudioQuota 5 1 "t" "d" (some (-1/3 : ℚ)) 61
       ≠ (.error 403 (some "AUDIO_QUOTA_EXCEEDED"), dbAudioQuota)) := by
  have hc : (⌈(5/2 : ℚ)⌉ : Int) = 3 := by
    rw [Int.ceil_eq_iff]
    norm_num
  have hz : (⌈(-1/3 : ℚ)⌉ : Int) = 0 := by
    rw [Int.ceil_eq_iff]
    norm_num
  constructor
  · exact audio_minutes_ceil_semantics.1 dbAudioQuota 5 1 "t" "d" (5/2) 60
      dreamerProfile audioSub samplePlan 15
      (by decide) (by decide) (by decide) (by decide) (by decide) rfl (by decide)
      (by rw [hc]; decide) rfl (by rw [hc]; decide)
  · exact (audio_minutes_ceil_semantics.2.2 dbAudioQuota 5 1 "t" "d" (some (-1/3)) 61
      (Or.inr (Or.inr ⟨-1/3, rfl, hz⟩))).1 dbAudioQuota

theorem bumpRow_self (a b : Nat) (r : UserPlan) :
    bumpRow r.id a b r
      = { r with lettersUsed := r.lettersUsed + a,
                 audioMinutesUsed := r.audioMinutesUsed + b } := by
  simp [bumpRow]

/-- N sequential dream creations (fixed non-empty title, no audio), stopping
with `none` as soon as one of them is not a 201. -/
def runDreams (now userId : Nat) : DB → List String → Nat → Option DB
  | db, [], _ => some db
  | db, dsc :: rest, nextId =>
    match postDream db now userId "dream" dsc none nextId with
    | (.created _, db1) => runDreams now userId db1 rest (nextId + 1)
    | (.error _ _, _) => none

/-- Claim C3: letters are counted in Unicode code points (`Array.from`),
not bytes; after N sequential successful creations the effective
subscription's `lettersUsed` equals its initial value plus the sum of the
code-point lengths of the N descriptions, and it never exceeds the plan's
`letterQuota` when that ceiling is set (given it did not exceed it
initially — in particular starting from a fresh subscription with
`lettersUsed = 0`). -/
theorem letters_counted_by_codepoints :
    (∀ s : String, countContentLetters s = s.length) ∧
    (∀ (descs : List String) (db : DB) (now userId nextId : Nat) (db' : DB)
       (sub : UserPlan),
       runDreams now userId db descs nextId = some db' →
       getActiveSubscription db.userPlans userId now = some sub →
       ∃ sub', getActiveSubscription db'.userPlans userId now = some sub' ∧
         sub'.id = sub.id ∧ sub'.planId = sub.planId ∧
         sub'.lettersUsed = sub.lettersUsed + (descs.map countContentLetters).sum ∧
         (∀ plan q, findPlan db sub.planId = some plan → plan.letterQuota = some q →
            sub.lettersUsed ≤ q → sub'.lettersUsed ≤ q)) := by
  constructor
  · intro s
    by_cases h : s = ""
    · subst h; rfl
    · simp [countContentLetters, h]
  · intro descs
    induction descs with
    | nil =>
      intro db now userId nextId db' sub hrun hsub
      simp only [runDreams] at hrun
      cases hrun
      exact ⟨sub, hsub, rfl, rfl, by simp, fun plan q _ _ hb => hb⟩
    | cons dsc rest ih =>
      intro db now userId nextId db' sub hrun hsub
      simp only [runDreams] at hrun
      split at hrun
      next dr db1 heq =>
        obtain ⟨sub0, plan, hsub0, hplan, hlq, _, _, hdd, hdb1⟩ :=
          postDream_created_inv _ _ _ _ _ _ _ _ _ heq
        have hss : sub0 = sub := Option.some.inj (hsub0.symm.trans hsub)
        subst hss
        subst hdb1
        have hga : getActiveSubscription
            (bumpUsage db.userPlans sub0.id (countContentLetters dsc) (audioDebit none))
            userId now
            = some (bumpRow sub0.id (countContentLetters dsc) (audioDebit none) sub0) := by
          have hmap := getActiveSubscription_map
            (bumpRow sub0.id (countContentLetters dsc) (audioDebit none)) userId now
            (fun r => subQualifies_bumpRow userId now sub0.id _ _ r)
            (fun r => startedAt_bumpRow sub0.id _ _ r) db.userPlans
          unfold bumpUsage
          rw [hmap, hsub0]
          rfl
        rw [bumpRow_self] at hga
        obtain ⟨sub', hga', hid', hpid', hsum', hq'⟩ :=
          ih _ now userId (nextId + 1) db'
            { sub0 with lettersUsed := sub0.lettersUsed + countContentLetters dsc,
                        audioMinutesUsed := sub0.audioMinutesUsed + audioDebit none }
            hrun hga
        refine ⟨sub', hga', hid', hpid', ?_, ?_⟩
        · rw [hsum']
          show sub0.lettersUsed + countContentLetters dsc
                + (rest.map countContentLetters).sum
              = sub0.lettersUsed + (List.map countContentLetters (dsc :: rest)).sum
          simp [Nat.add_assoc]
        · intro plan' q hfp hq hb0
          have hpp : plan' = plan := Option.some.inj (hfp.symm.trans hplan)
          subst hpp
          have hpass : sub0.lettersUsed + countContentLetters dsc ≤ q := by
            simp [letterQuotaBlocked, hq] at hlq
            omega
          exact hq' plan' q hfp hq hpass
      next =>
        simp at hrun

def runStartSub : UserPlan :=
  { id := 46, userId := 1, planId := 2, startedAt := 0, expiresAt := none,
    isActive := true, lettersUsed := 0, audioMinutesUsed := 0 }

def dbRun : DB :=
  { users := [], profiles := [dreamerProfile], plans := [samplePlan],
    userPlans := [runStartSub], dreams := [], messages := [], comments := [],
    payments := [] }

/-- Witness for C3: the Arabic description "حلم" has UTF-8 byte length 6 but
counts as 3 letters; after creating "حلم" (3) and then "رؤيا" (4) under a
fresh subscription with `letterQuota = 10`, `lettersUsed` is exactly 7. -/
theorem letters_counted_by_codepoints_witness :
    countContentLetters "حلم" = 3 ∧
    ("حلم".toUTF8.size = 6) ∧
    ((runDreams 5 1 dbRun ["حلم", "رؤيا"] 70).map
        (fun dbf => (getActiveSubscription dbf.userPlans 1 5).map UserPlan.lettersUsed))
      = some (some 7) := by
  refine ⟨(letters_counted_by_codepoints.1 "حلم").trans (by decide), by decide, ?_⟩
  cases hr : runDreams 5 1 dbRun ["حلم", "رؤيا"] 70 with
  | none => exact absurd hr (by decide)
  | some dbf =>
    obtain ⟨sub', hga, _, _, hsum, _⟩ :=
      letters_counted_by_codepoints.2 ["حلم", "رؤيا"] dbRun 5 1 70 dbf runStartSub
        hr (by decide)
    simp only [Option.map]
    rw [hga]
    show some (some (sub'.lettersUsed)) = some (some 7)
    rw [hsum]
    decide
